import Mathlib

/-!
Shallow embedding of `src/astrbot/core/provider/sources/azure_tts_source.py`:
an Azure text-to-speech provider adapter with two backends, the native SDK
client (`NativeAzureTTS`) and a signed-URL HTTP relay (`OTTSClient`), selected
by `create_provider` from the subscription-key configuration field.

Conventions of the embedding:
* Python exceptions are the `Except PyError` channel; `raise` is `.error`,
  a `try/except` block is a `match` on that channel.  The spec's
  `SynthesisError` is the code's `RuntimeError`, its `ConfigurationError`
  the code's `ValueError` raised during construction.
* External library calls (the Azure SDK synthesis result, `json.loads`,
  the HTTP session, the clock, `random.choices`) are oracle parameters:
  each call site receives the value the library returned.  `hashlib.md5`
  is embedded concretely (the full MD5 algorithm over byte lists).
* The temp directory is a list of (file name, byte content) pairs;
  `os.path.exists` / `unlink` / `open(..,"wb").write` act on it.  The
  outcome of each `Path.unlink` call comes from an oracle, since deletion
  may raise `PermissionError` or another `OSError` at the OS's whim.
-/

namespace AzureTTS

/-- A primitive Python value as stored in a configuration dict.  The
configuration dicts and the flat JSON payloads the adapter reads hold
strings and numbers. -/
inductive PyVal where
  | str (s : String)
  | int (n : Int)
deriving DecidableEq, Repr

/-- Python `str(v)`: how a value renders inside an f-string. -/
def pyStr : PyVal → String
  | .str s => s
  | .int n => toString n

/-- A Python dict of configuration values. -/
abbrev Dict := List (String × PyVal)

/-- Python `d[k]` / `d.get(k)`: the first binding wins in this list model. -/
def dictGet (d : Dict) (k : String) : Option PyVal :=
  (d.find? (fun e => e.1 == k)).map (fun e => e.2)

/-- Python `d.get(k, dflt)`. -/
def dictGetD (d : Dict) (k : String) (dflt : PyVal) : PyVal :=
  (dictGet d k).getD dflt

/-- Python `{**a, **b}`: entries of `b` shadow entries of `a`. -/
def dictMerge (a b : Dict) : Dict := b ++ a

/-- The Python exceptions the adapter can raise.  `RuntimeError` is the
spec's `SynthesisError`; `ValueError` at construction is the spec's
`ConfigurationError`.  `ValueError` for the missing relay keys carries the
list of missing keys (the source formats them into the message with an
unspecified set-iteration order). -/
inductive PyError where
  | valueError (msg : String)
  | valueErrorMissing (keys : List String)
  | keyError (k : String)
  | typeError (msg : String)
  | attributeError (attr : String)
  | nameError (n : String)
  | runtimeError (msg : String)
  | requestException (msg : String)
deriving DecidableEq, Repr

/-- The spec's `SynthesisError` is the adapter's per-call `RuntimeError`. -/
def isSynthesisError : PyError → Bool
  | .runtimeError _ => true
  | _ => false

/-- Python `d[k]`, raising `KeyError` when the key is absent. -/
def dictGetE (d : Dict) (k : String) : Except PyError PyVal :=
  match dictGet d k with
  | some v => .ok v
  | none => .error (.keyError k)

/-- The temp directory: file name to byte content. -/
abbrev FS := List (String × List Nat)

/-- Python `path.exists()`. -/
def hasFile (fs : FS) (p : String) : Bool := fs.any (fun e => e.1 == p)

/-- Python `path.unlink()` when it succeeds. -/
def removeFile (fs : FS) (p : String) : FS := fs.filter (fun e => e.1 != p)

/-- Python `open(path, "wb"); f.write(bytes)`. -/
def writeFile (fs : FS) (p : String) (bytes : List Nat) : FS :=
  (p, bytes) :: removeFile fs p

/-- What one `Path.unlink` call does, chosen by the filesystem oracle:
succeed, raise `PermissionError`, or raise some other exception. -/
inductive UnlinkOutcome where
  | ok
  | permError
  | otherError
deriving DecidableEq, Repr

/-- Result of `BaseAzureTTS._cleanup`: the directory afterwards, how many
`unlink` calls were made, how many `time.sleep(0.1)` ran, and whether the
give-up warning was logged. -/
structure CleanupRes where
  fs : FS
  attempts : Nat
  sleeps : Nat
  warned : Bool
deriving DecidableEq, Repr

/-- The body of `BaseAzureTTS._cleanup`'s `for _ in range(3)` loop.
`k` is the remaining iterations, `a`/`s` the unlink and sleep counters.
Per the source: when the file exists, `unlink` is attempted; success
returns, `PermissionError` sleeps and retries, any other exception logs a
warning and breaks.  When the file does not exist the loop just iterates. -/
def cleanupGo (o : Nat → UnlinkOutcome) (p : String) :
    Nat → FS → Nat → Nat → CleanupRes
  | 0, fs, a, s => ⟨fs, a, s, false⟩
  | k + 1, fs, a, s =>
    if hasFile fs p then
      match o a with
      | .ok => ⟨removeFile fs p, a + 1, s, false⟩
      | .permError => cleanupGo o p k fs (a + 1) (s + 1)
      | .otherError => ⟨fs, a + 1, s, true⟩
    else cleanupGo o p k fs a s

/-- `BaseAzureTTS._cleanup(path)`.  The `Except` channel is the Python
exception channel of the call: the source's `except PermissionError` /
`except Exception` handlers decide what escapes. -/
def cleanup (o : Nat → UnlinkOutcome) (fs : FS) (p : String) :
    Except PyError CleanupRes :=
  .ok (cleanupGo o p 3 fs 0 0)

/-- The voice parameters read by `BaseAzureTTS._load_config` (values are
rendered with `str()` where the adapter interpolates them). -/
structure VoiceConfig where
  voice : String
  style : String
  role : String
  rate : String
  volume : String
deriving DecidableEq, Repr

/-- `BaseAzureTTS._load_config`: the five voice parameters with their
documented defaults. -/
def loadConfig (config : Dict) : VoiceConfig :=
  ⟨pyStr (dictGetD config "azure_tts_voice" (.str "zh-CN-YunxiaNeural")),
   pyStr (dictGetD config "azure_tts_style" (.str "cheerful")),
   pyStr (dictGetD config "azure_tts_role" (.str "Boy")),
   pyStr (dictGetD config "azure_tts_rate" (.str "1.0")),
   pyStr (dictGetD config "azure_tts_volume" (.str "100"))⟩

/-- `ResultReason` of the SDK as the adapter inspects it: completed,
canceled, or any other member of the vendor enumeration. -/
inductive ResultReason where
  | synthesizingAudioCompleted
  | canceled
  | otherReason
deriving DecidableEq, Repr

/-- `CancellationReason`: `Error`, or any other member (carrying its
`str()` rendering, which the adapter interpolates into the message). -/
inductive CancellationReason where
  | error
  | other (display : String)
deriving DecidableEq, Repr

/-- Python `str(cancellation.reason)`. -/
def cancellationReasonStr : CancellationReason → String
  | .error => "CancellationReason.Error"
  | .other d => d

/-- The fields of the SDK synthesis result that the adapter reads. -/
structure SpeechResult where
  reason : ResultReason
  cancellationReason : CancellationReason
  errorDetails : String
deriving DecidableEq, Repr

/-- `NativeAzureTTS._handle_error(result, file_path)`: builds the message
only under `result.reason == ResultReason.Canceled`, then cleans up and
raises.  When the reason is not `Canceled`, `error_msg` was never assigned,
so evaluating `RuntimeError(error_msg)` raises `UnboundLocalError` (a
`NameError`) instead.  Returns the raised exception and the directory
afterwards. -/
def handle_error (result : SpeechResult) (o : Nat → UnlinkOutcome)
    (fs : FS) (p : String) : PyError × FS :=
  match result.reason with
  | .canceled =>
    let base := "合成取消: " ++ cancellationReasonStr result.cancellationReason
    let msg := match result.cancellationReason with
      | .error => base ++ ", 错误详情: " ++ result.errorDetails
      | .other _ => base
    match cleanup o fs p with
    | .ok r => (.runtimeError msg, r.fs)
    | .error e => (e, fs)
  | _ =>
    match cleanup o fs p with
    | .ok r => (.nameError "error_msg", r.fs)
    | .error e => (e, fs)

/-- `NativeAzureTTS._build_ssml(text)`: the exact f-string of the source,
with the five voice parameters and the raw text interpolated. -/
def build_ssml (vc : VoiceConfig) (text : String) : String :=
  "<speak version='1.0' xmlns='http://www.w3.org/2001/10/synthesis'\n            xmlns:mstts='http://www.w3.org/2001/mstts' xml:lang='zh-CN'>\n            <voice name='"
  ++ vc.voice
  ++ "'>\n                <mstts:express-as style='"
  ++ vc.style
  ++ "' role='"
  ++ vc.role
  ++ "'>\n                    <prosody rate='"
  ++ vc.rate
  ++ "' volume='"
  ++ vc.volume
  ++ "'>\n                        "
  ++ text
  ++ "\n                    </prosody>\n                </mstts:express-as>\n            </voice>\n        </speak>"

/-- `NativeAzureTTS.get_audio(text)`.  The SDK call `speak_ssml` is the
oracle pair (`result`, `written`): the returned `SpeechResult` and whether
the synthesizer created the output file (with bytes `audio`).  `o1` is the
unlink oracle of the `_handle_error` cleanup, `o2` of the
`except Exception` handler's cleanup; `p` is the fresh
`azure_<uuid>.wav` path.  On a completed result the path is returned; any
other result goes through `_handle_error`, whose raise is caught by the
`except Exception` handler, which cleans up again and re-raises. -/
def native_get_audio (result : SpeechResult) (written : Bool)
    (o1 o2 : Nat → UnlinkOutcome) (fs : FS) (p : String)
    (audio : List Nat) : Except PyError String × FS :=
  let fs1 := if written then writeFile fs p audio else fs
  match result.reason with
  | .synthesizingAudioCompleted => (.ok p, fs1)
  | _ =>
    let er := handle_error result o1 fs1 p
    match cleanup o2 er.2 p with
    | .ok r => (.error er.1, r.fs)
    | .error e2 => (.error e2, er.2)

/-! `hashlib.md5`, embedded concretely: MD5 over byte lists, with 32-bit
words as `Nat` reduced mod `2^32`. -/

/-- The 64 MD5 round constants `floor(2^32 * |sin(i+1)|)`. -/
def md5K : List Nat :=
  [0xd76aa478, 0xe8c7b756, 0x242070db, 0xc1bdceee,
   0xf57c0faf, 0x4787c62a, 0xa8304613, 0xfd469501,
   0x698098d8, 0x8b44f7af, 0xffff5bb1, 0x895cd7be,
   0x6b901122, 0xfd987193, 0xa679438e, 0x49b40821,
   0xf61e2562, 0xc040b340, 0x265e5a51, 0xe9b6c7aa,
   0xd62f105d, 0x02441453, 0xd8a1e681, 0xe7d3fbc8,
   0x21e1cde6, 0xc33707d6, 0xf4d50d87, 0x455a14ed,
   0xa9e3e905, 0xfcefa3f8, 0x676f02d9, 0x8d2a4c8a,
   0xfffa3942, 0x8771f681, 0x6d9d6122, 0xfde5380c,
   0xa4beea44, 0x4bdecfa9, 0xf6bb4b60, 0xbebfbc70,
   0x289b7ec6, 0xeaa127fa, 0xd4ef3085, 0x04881d05,
   0xd9d4d039, 0xe6db99e5, 0x1fa27cf8, 0xc4ac5665,
   0xf4292244, 0x432aff97, 0xab9423a7, 0xfc93a039,
   0x655b59c3, 0x8f0ccc92, 0xffeff47d, 0x85845dd1,
   0x6fa87e4f, 0xfe2ce6e0, 0xa3014314, 0x4e0811a1,
   0xf7537e82, 0xbd3af235, 0x2ad7d2bb, 0xeb86d391]

/-- The per-round left-rotation amounts of MD5. -/
def md5S : List Nat :=
  (List.replicate 4 [7, 12, 17, 22]).flatten ++
  (List.replicate 4 [5, 9, 14, 20]).flatten ++
  (List.replicate 4 [4, 11, 16, 23]).flatten ++
  (List.replicate 4 [6, 10, 15, 21]).flatten

/-- All-ones 32-bit mask; `mask32 - x` is the 32-bit complement of `x`. -/
def mask32 : Nat := 4294967295

/-- 32-bit left rotation. -/
def rotl32 (x n : Nat) : Nat :=
  ((x <<< n) ||| (x >>> (32 - n))) % 4294967296

/-- The MD5 round functions F, G, H, I, selected by the round index. -/
def md5F (i b c d : Nat) : Nat :=
  if i < 16 then (b &&& c) ||| ((mask32 - b) &&& d)
  else if i < 32 then (d &&& b) ||| ((mask32 - d) &&& c)
  else if i < 48 then b ^^^ c ^^^ d
  else c ^^^ (b ||| (mask32 - d))

/-- The MD5 message-word index for round `i`. -/
def md5G (i : Nat) : Nat :=
  if i < 16 then i
  else if i < 32 then (5 * i + 1) % 16
  else if i < 48 then (3 * i + 5) % 16
  else (7 * i) % 16

/-- Four little-endian bytes of a 32-bit word. -/
def le32 (n : Nat) : List Nat :=
  [n % 256, n / 256 % 256, n / 65536 % 256, n / 16777216 % 256]

/-- Eight little-endian bytes of a 64-bit length. -/
def le64 (n : Nat) : List Nat := le32 (n % 4294967296) ++ le32 (n / 4294967296)

/-- The `g`-th little-endian 32-bit word of a 64-byte block. -/
def md5Word (block : List Nat) (g : Nat) : Nat :=
  block.getD (4 * g) 0 + 256 * block.getD (4 * g + 1) 0 +
  65536 * block.getD (4 * g + 2) 0 + 16777216 * block.getD (4 * g + 3) 0

/-- MD5 padding: a 0x80 byte, zeros to 56 mod 64, then the bit length as a
little-endian 64-bit number. -/
def md5Pad (msg : List Nat) : List Nat :=
  msg ++ [128] ++ List.replicate ((120 - (msg.length + 1) % 64) % 64) 0 ++
  le64 ((msg.length * 8) % 18446744073709551616)

/-- One MD5 round: state `(a, b, c, d)` to the next state. -/
def md5Step (block : List Nat) (st : Nat × Nat × Nat × Nat) (i : Nat) :
    Nat × Nat × Nat × Nat :=
  let a := st.1
  let b := st.2.1
  let c := st.2.2.1
  let d := st.2.2.2
  let f := (a + md5F i b c d + md5K.getD i 0 + md5Word block (md5G i)) % 4294967296
  (d, (b + rotl32 f (md5S.getD i 0)) % 4294967296, b, c)

/-- Compress one 64-byte block into the running MD5 state. -/
def md5Block (st : Nat × Nat × Nat × Nat) (block : List Nat) :
    Nat × Nat × Nat × Nat :=
  let r := (List.range 64).foldl (md5Step block) st
  ((st.1 + r.1) % 4294967296, (st.2.1 + r.2.1) % 4294967296,
   (st.2.2.1 + r.2.2.1) % 4294967296, (st.2.2.2 + r.2.2.2) % 4294967296)

/-- Fold the compression over all 64-byte chunks (`fuel` bounds the
recursion; any `fuel` at least the byte count is exact). -/
def md5Blocks (fuel : Nat) (st : Nat × Nat × Nat × Nat) (bytes : List Nat) :
    Nat × Nat × Nat × Nat :=
  match fuel, bytes with
  | 0, _ => st
  | _, [] => st
  | fuel + 1, b :: rest =>
    md5Blocks fuel (md5Block st ((b :: rest).take 64)) ((b :: rest).drop 64)

/-- One lowercase hex digit. -/
def hexDigitChar (n : Nat) : Char := "0123456789abcdef".data.getD n 'x'

/-- Two lowercase hex digits of a byte. -/
def byteHex (b : Nat) : List Char := [hexDigitChar (b / 16), hexDigitChar (b % 16)]

/-- `hashlib.md5(bytes).hexdigest()`. -/
def md5Hex (msg : List Nat) : String :=
  let padded := md5Pad msg
  let h := md5Blocks padded.length (0x67452301, 0xefcdab89, 0x98badcfe, 0x10325476) padded
  String.mk (((le32 h.1 ++ le32 h.2.1 ++ le32 h.2.2.1 ++ le32 h.2.2.2).map byteHex).flatten)

/-- UTF-8 encoding of one code point. -/
def utf8Char (n : Nat) : List Nat :=
  if n < 128 then [n]
  else if n < 2048 then [192 + n / 64, 128 + n % 64]
  else if n < 65536 then [224 + n / 4096, 128 + n / 64 % 64, 128 + n % 64]
  else [240 + n / 262144, 128 + n / 4096 % 64, 128 + n / 64 % 64, 128 + n % 64]

/-- Python `s.encode()`: the UTF-8 bytes of a string. -/
def strBytes (s : String) : List Nat :=
  (s.data.map (fun c => utf8Char c.toNat)).flatten

set_option maxRecDepth 8192 in
example : md5Hex (strBytes "") = "d41d8cd98f00b204e9800998ecf8427e" := by decide

set_option maxRecDepth 8192 in
example : md5Hex (strBytes "abc") = "900150983cd24fb0d6963f7d28e17f72" := by decide

/-! String helpers mirroring the Python string methods the source uses. -/

/-- Python `pre.isPrefixOf`-style `s.startswith(pre)`. -/
def pyStartswith (s pre : String) : Bool := pre.data.isPrefixOf s.data

/-- Python `s.endswith(suf)`. -/
def pyEndswith (s suf : String) : Bool := suf.data.isSuffixOf s.data

/-- The character list after the first occurrence of `sep`, when `sep`
occurs. -/
def splitTailAux (sep : List Char) : List Char → Option (List Char)
  | [] => none
  | c :: rest =>
    if sep.isPrefixOf (c :: rest) then some ((c :: rest).drop sep.length)
    else splitTailAux sep rest

/-- Python `s.split(sep, 1)[-1]`: everything after the first occurrence of
`sep`, or `s` itself when `sep` does not occur. -/
def pySplit1Last (sep s : String) : String :=
  match splitTailAux sep.data s.data with
  | some t => String.mk t
  | none => s

/-- Python `s.rstrip(slash)` for the slash character. -/
def rstripSlash (s : String) : String :=
  String.mk ((s.data.reverse.dropWhile (fun c => c == '/')).reverse)

/-- Python `s[6:-1]`. -/
def pySlice6m1 (s : String) : String := String.mk ((s.data.drop 6).dropLast)

/-- Whether `sub` occurs contiguously inside `l`. -/
def listContainsSub (sub : List Char) : List Char → Bool
  | [] => sub.isEmpty
  | c :: rest => sub.isPrefixOf (c :: rest) || listContainsSub sub rest

/-- Whether the string `sub` occurs contiguously inside `s`. -/
def containsSub (s sub : String) : Bool := listContainsSub sub.data s.data

/-! The relay client `OTTSClient`. -/

/-- The state `OTTSClient.__init__` builds: signing key, base URL (with
trailing slashes stripped), auth-time URL, and the mutable clock offset. -/
structure OTTSState where
  skey : String
  api_url : String
  auth_time_url : String
  time_offset : Int
deriving DecidableEq, Repr

/-- `OTTSClient.__init__` on the merged configuration dict.  `TTS_SKEY`,
`TTS_URL` and `TTS_AUTH_TIME` are looked up with `dict[...]` (KeyError when
absent, in source order); `TTS_URL` goes through `.rstrip('/')`, which
raises `AttributeError` on a non-string value.  `time_offset` starts at 0. -/
def otts_init (config : Dict) : Except PyError OTTSState :=
  match dictGetE config "TTS_SKEY" with
  | .error e => .error e
  | .ok skey =>
    match dictGetE config "TTS_URL" with
    | .error e => .error e
    | .ok (.str u) =>
      match dictGetE config "TTS_AUTH_TIME" with
      | .error e => .error e
      | .ok authTime => .ok ⟨pyStr skey, rstripSlash u, pyStr authTime, 0⟩
    | .ok _ => .error (.attributeError "rstrip")

/-- `OTTSClient._get_sync_time()`.  `serverTime` is the oracle for
`session.get(auth_time_url).json()["timestamp"]`: `some t` when the request
and the JSON lookup succeed, `none` on any exception.  `localTime` is
`int(time.time())` and `nonce` the `_generate_nonce()` draw.  On success the
cached offset becomes server minus local time; on failure the timestamp is
the local clock plus the cached offset, which is left unchanged. -/
def get_sync_time (serverTime : Option Int) (localTime : Int)
    (st : OTTSState) (nonce : String) : (Int × String) × OTTSState :=
  match serverTime with
  | some t => ((t, nonce), ⟨st.skey, st.api_url, st.auth_time_url, t - localTime⟩)
  | none => ((localTime + st.time_offset, nonce), st)

/-- The path string `OTTSClient._generate_signed_url` computes:
`'/' + api_url.split('//', 1)[-1].split('/', 1)[-1]`. -/
def codeUrlPath (api_url : String) : String :=
  "/" ++ pySplit1Last "/" (pySplit1Last "//" api_url)

/-- `OTTSClient._generate_signed_url()`: sync the time, hash
`path-timestamp-nonce-0-skey` with MD5, and append the
`?sign=timestamp-nonce-0-signature` query.  Returns the URL and the state
after the time sync. -/
def generate_signed_url (st : OTTSState) (serverTime : Option Int)
    (localTime : Int) (nonce : String) : String × OTTSState :=
  let tn := get_sync_time serverTime localTime st nonce
  let path := codeUrlPath st.api_url
  let signature := md5Hex (strBytes
    (path ++ "-" ++ toString tn.1.1 ++ "-" ++ tn.1.2 ++ "-0-" ++ st.skey))
  (st.api_url ++ "?sign=" ++ toString tn.1.1 ++ "-" ++ tn.1.2 ++ "-0-" ++ signature,
   tn.2)

/-- What `session.post` returned: an HTTP status and body. -/
structure HttpResponse where
  status : Nat
  content : List Nat
deriving DecidableEq, Repr

/-- One outbound POST as the transport issues it: target URL, the form
fields of `data=`, and the `timeout=` seconds. -/
structure PostRequest where
  url : String
  fields : List (String × String)
  timeout : Nat
deriving DecidableEq, Repr

/-- `response.raise_for_status()`: `requests` raises `HTTPError` (a
`RequestException`) exactly for status codes 400–599. -/
def raiseForStatus (r : HttpResponse) : Bool :=
  decide (400 ≤ r.status) && decide (r.status < 600)

/-- `OTTSClient.get_audio(text)`.  `postResult` is the oracle for
`session.post`: `.error` is a network-level `RequestException`, `.ok` the
response.  `o` is the unlink oracle of the handler's `_cleanup`, `p` the
fresh `otts_<uuid>.wav` path.  Returns the call's outcome, the temp
directory, the state after the time sync, and the list of POSTs issued. -/
def otts_get_audio (st : OTTSState) (vc : VoiceConfig) (text : String)
    (serverTime : Option Int) (localTime : Int) (nonce : String)
    (postResult : Except String HttpResponse) (o : Nat → UnlinkOutcome)
    (fs : FS) (p : String) :
    (Except PyError String × FS) × OTTSState × List PostRequest :=
  let su := generate_signed_url st serverTime localTime nonce
  let req : PostRequest :=
    ⟨su.1,
     [("text", text), ("voice", vc.voice), ("style", vc.style),
      ("role", vc.role), ("rate", vc.rate), ("volume", vc.volume)],
     10⟩
  match postResult with
  | .error _ =>
    match cleanup o fs p with
    | .ok r => ((.error (.runtimeError "语音服务暂时不可用"), r.fs), su.2, [req])
    | .error e => ((.error e, fs), su.2, [req])
  | .ok resp =>
    if raiseForStatus resp then
      match cleanup o fs p with
      | .ok r => ((.error (.runtimeError "语音服务暂时不可用"), r.fs), su.2, [req])
      | .error e => ((.error e, fs), su.2, [req])
    else
      ((.ok p, writeFile fs p resp.content), su.2, [req])

/-! The factory `create_provider`. -/

/-- What `json.loads` produced: a JSON object with flat values, or some
other JSON document (which has no `.keys()`). -/
inductive JsonDoc where
  | obj (kv : List (String × PyVal))
  | nonObj
deriving DecidableEq, Repr

/-- The state `NativeAzureTTS.__init__` builds. -/
structure NativeState where
  sub_key : String
  region : String
deriving DecidableEq, Repr

/-- Membership in the regex character class `[a-fA-F0-9]`. -/
def isHexChar (c : Char) : Bool :=
  (decide ('0' ≤ c) && decide (c ≤ '9')) ||
  (decide ('a' ≤ c) && decide (c ≤ 'f')) ||
  (decide ('A' ≤ c) && decide (c ≤ 'F'))

/-- Whether `re.fullmatch(r"^[a-fA-F0-9]{32}$", s)` matches: 32 characters,
all hexadecimal digits. -/
def isHex32 (s : String) : Bool :=
  s.length == 32 && s.data.all isHexChar

/-- `NativeAzureTTS.__init__`: read the subscription key (`KeyError` when
absent, `TypeError` when `re.fullmatch` gets a non-string), validate the
32-hex format (`ValueError` otherwise), then read the region for
`SpeechConfig`. -/
def native_init (config : Dict) : Except PyError NativeState :=
  match dictGetE config "azure_tts_subscription_key" with
  | .error e => .error e
  | .ok (.str sub_key) =>
    if isHex32 sub_key then
      match dictGetE config "azure_tts_region" with
      | .error e => .error e
      | .ok region => .ok ⟨sub_key, pyStr region⟩
    else .error (.valueError "无效的Azure订阅密钥格式")
  | .ok _ => .error (.typeError "expected string or bytes-like object")

/-- The constructed adapter: which backend the factory selected, with its
state and voice parameters. -/
inductive Backend where
  | native (st : NativeState) (vc : VoiceConfig)
  | relay (st : OTTSState) (vc : VoiceConfig)
deriving DecidableEq, Repr

/-- The required relay-payload keys, in the order the source writes the
set literal. -/
def requiredKeys : List String := ["TTS_SKEY", "TTS_URL", "TTS_AUTH_TIME"]

/-- `create_provider(provider_config, ...)`.  `loads` is the oracle for
`json.loads` (`.error` a `JSONDecodeError`).  A subscription key matching
`other[...]` routes to the relay: parse the payload (`ValueError`
"OTTS配置格式错误" when `json.loads` fails), check the required keys
(`ValueError` naming the missing ones — the raise is not caught, since it
is no `JSONDecodeError`), and build `OTTSClient` on the merged dict.  Any
other key routes to `NativeAzureTTS`. -/
def create_provider (loads : String → Except Unit JsonDoc) (config : Dict) :
    Except PyError Backend :=
  match dictGetD config "azure_tts_subscription_key" (.str "") with
  | .int _ => .error (.attributeError "startswith")
  | .str sub_key =>
    if pyStartswith sub_key "other[" && pyEndswith sub_key "]" then
      match loads (pySlice6m1 sub_key) with
      | .error _ => .error (.valueError "OTTS配置格式错误")
      | .ok .nonObj => .error (.attributeError "keys")
      | .ok (.obj kv) =>
        let missing := requiredKeys.filter (fun k => !((kv.map Prod.fst).contains k))
        if missing.isEmpty then
          match otts_init (dictMerge config kv) with
          | .error e => .error e
          | .ok st => .ok (.relay st (loadConfig (dictMerge config kv)))
        else .error (.valueErrorMissing missing)
    else
      match native_init config with
      | .error e => .error e
      | .ok st => .ok (.native st (loadConfig config))

/-! Definitions written from the spec's words, for comparison with the
source's computations. -/

/-- Modelled from the spec: "the URL path component of the API base URL".
For `scheme://authority/rest` this is `/rest`-style: everything from the
first slash after the authority; a URL with no slash after the authority
has the empty path.  Without a `//` separator the whole string is the
path, as in `urllib.parse.urlparse`. -/
def urlPathSpec (url : String) : String :=
  match splitTailAux "//".data url.data with
  | some rest =>
    match splitTailAux "/".data rest with
    | some t => "/" ++ String.mk t
    | none => ""
  | none => url

/-- Modelled from the spec: escaping of the XML-unsafe characters the spec
names (`&` first, then `<`). -/
def xmlEscapeSpec (s : String) : String :=
  String.mk ((s.data.map (fun c =>
    if c == '&' then "&amp;".data
    else if c == '<' then "&lt;".data
    else [c])).flatten)

/-- Whether the API base URL has a `//` separator and a slash after the
authority, i.e. a nonempty path component. -/
def urlHasPath (url : String) : Bool :=
  match splitTailAux "//".data url.data with
  | some rest => (splitTailAux "/".data rest).isSome
  | none => false

/-- The bytes stored under a file name. -/
def readFile (fs : FS) (p : String) : Option (List Nat) :=
  (fs.find? (fun e => e.1 == p)).map (fun e => e.2)

/-- A filesystem oracle whose every `unlink` succeeds. -/
def alwaysOk : Nat → UnlinkOutcome := fun _ => .ok

/-- A `json.loads` oracle returning a fixed parse result. -/
def loadsConst (d : Except Unit JsonDoc) : String → Except Unit JsonDoc :=
  fun _ => d

/-! The pieces of the source's SSML f-string between the interpolation
slots, named so the template structure can be stated. -/

/-- Template text before the voice name. -/
def ssmlP1 : String := "<speak version='1.0' xmlns='http://www.w3.org/2001/10/synthesis'\n            xmlns:mstts='http://www.w3.org/2001/mstts' xml:lang='zh-CN'>\n            <voice name='"

/-- Template text between the voice name and the style. -/
def ssmlP2 : String := "'>\n                <mstts:express-as style='"

/-- Template text between the style and the role. -/
def ssmlP3 : String := "' role='"

/-- Template text between the role and the rate. -/
def ssmlP4 : String := "'>\n                    <prosody rate='"

/-- Template text between the rate and the volume. -/
def ssmlP5 : String := "' volume='"

/-- Template text between the volume and the input text. -/
def ssmlP6 : String := "'>\n                        "

/-- Template text after the input text: the closing tags. -/
def ssmlP7 : String := "\n                    </prosody>\n                </mstts:express-as>\n            </voice>\n        </speak>"

/-! ### Supporting lemmas -/

theorem hasFile_removeFile (fs : FS) (p : String) :
    hasFile (removeFile fs p) p = false := by
  rw [Bool.eq_false_iff]
  intro hcon
  rw [hasFile, List.any_eq_true] at hcon
  obtain ⟨e, he, hep⟩ := hcon
  rw [removeFile, List.mem_filter] at he
  obtain ⟨-, hne⟩ := he
  simp only [bne_iff_ne, ne_eq] at hne
  simp only [beq_iff_eq] at hep
  exact hne hep

theorem hasFile_writeFile (fs : FS) (p : String) (bytes : List Nat) :
    hasFile (writeFile fs p bytes) p = true := by
  simp [hasFile, writeFile]

theorem readFile_writeFile (fs : FS) (p : String) (bytes : List Nat) :
    readFile (writeFile fs p bytes) p = some bytes := by
  simp [readFile, writeFile, List.find?]

theorem cleanupGo_absent (o : Nat → UnlinkOutcome) (p : String) (k : Nat)
    (fs : FS) (a s : Nat) (h : hasFile fs p = false) :
    cleanupGo o p k fs a s = ⟨fs, a, s, false⟩ := by
  induction k generalizing a s with
  | zero => rfl
  | succ k ih => simp [cleanupGo, h, ih]

theorem cleanupGo_removes (o : Nat → UnlinkOutcome) (fs : FS) (p : String)
    (h : o 0 = UnlinkOutcome.ok) :
    hasFile (cleanupGo o p 3 fs 0 0).fs p = false := by
  cases hf : hasFile fs p
  · rw [cleanupGo_absent o p 3 fs 0 0 hf]
    exact hf
  · simp [cleanupGo, hf, h, hasFile_removeFile]

theorem listContainsSub_nil (l : List Char) : listContainsSub [] l = true := by
  cases l <;> simp [listContainsSub, List.isPrefixOf]

theorem listContainsSub_mid (m a b : List Char) :
    listContainsSub m (a ++ (m ++ b)) = true := by
  induction a with
  | nil =>
    cases m with
    | nil => simpa using listContainsSub_nil b
    | cons c t =>
      have h2 : (c :: t).isPrefixOf (c :: (t ++ b)) = true :=
        List.isPrefixOf_iff_prefix.mpr (List.prefix_append (c :: t) b)
      simp [listContainsSub, h2]
  | cons c t ih => simp [listContainsSub, ih]

theorem listContainsSub_append_left (m x y : List Char)
    (h : listContainsSub m y = true) : listContainsSub m (x ++ y) = true := by
  induction x with
  | nil => simpa using h
  | cons c t ih => simp [listContainsSub, ih]

/-! ### The claims -/

set_option maxRecDepth 8192 in
/-- C2 (counterexample): for the input text `a&b` the produced SSML document
does not contain the XML-escaped form `a&amp;b` of the text — the source
interpolates the text into the f-string without any escaping. -/
theorem C2_counterexample :
    containsSub
      (build_ssml ⟨"zh-CN-YunxiaNeural", "cheerful", "Boy", "1.0", "100"⟩ "a&b")
      (xmlEscapeSpec "a&b") = false := by decide

set_option maxRecDepth 8192 in
/-- C2 (amended): for every input text, the SSML document built for native
synthesis is exactly the fixed template `<speak>` → `<voice name=voice>` →
`<mstts:express-as style role>` → `<prosody rate volume>text</prosody>`
with the voice parameters and the input text interpolated verbatim (no XML
escaping is applied), and in particular it contains the raw input text. -/
theorem C2_theorem (vc : VoiceConfig) (text : String) :
    build_ssml vc text =
      ssmlP1 ++ vc.voice ++ ssmlP2 ++ vc.style ++ ssmlP3 ++ vc.role ++
      ssmlP4 ++ vc.rate ++ ssmlP5 ++ vc.volume ++ ssmlP6 ++ text ++ ssmlP7
    ∧ containsSub (build_ssml vc text) text = true := by
  constructor
  · rfl
  · show listContainsSub text.data (build_ssml vc text).data = true
    have hd : (build_ssml vc text).data =
        ssmlP1.data ++ (vc.voice.data ++ (ssmlP2.data ++ (vc.style.data ++
        (ssmlP3.data ++ (vc.role.data ++ (ssmlP4.data ++ (vc.rate.data ++
        (ssmlP5.data ++ (vc.volume.data ++ (ssmlP6.data ++
        (text.data ++ ssmlP7.data))))))))))) := by
      simp [build_ssml, ssmlP1, ssmlP2, ssmlP3, ssmlP4, ssmlP5, ssmlP6,
        ssmlP7, String.data_append, List.append_assoc]
    rw [hd]
    apply listContainsSub_append_left
    apply listContainsSub_append_left
    apply listContainsSub_append_left
    apply listContainsSub_append_left
    apply listContainsSub_append_left
    apply listContainsSub_append_left
    apply listContainsSub_append_left
    apply listContainsSub_append_left
    apply listContainsSub_append_left
    apply listContainsSub_append_left
    apply listContainsSub_append_left
    exact listContainsSub_mid text.data [] ssmlP7.data

/-- C6 (counterexample): on a synthesis result that is neither completed nor
canceled, `_handle_error` raises `UnboundLocalError` for the never-assigned
`error_msg` (a `NameError`), not a `SynthesisError` with a message — so the
handler does not produce a uniform `SynthesisError` for every non-successful
result, and there is no completed-but-file-missing message at all. -/
theorem C6_counterexample :
    (handle_error ⟨ResultReason.otherReason,
        CancellationReason.other "CancellationReason.CancelledByUser", ""⟩
        alwaysOk [("f.wav", [0])] "f.wav").1 = PyError.nameError "error_msg"
    ∧ isSynthesisError (PyError.nameError "error_msg") = false := by decide

/-- C6 (amended): the error handler distinguishes two cases, both raised as
a `SynthesisError` with a human-readable message: canceled with reason
`Error` (message carries the error detail) and canceled with any other
reason (message without detail).  A result with any other reason instead
raises a `NameError` (`error_msg` is unbound there); the code has no
completed-but-file-missing case. -/
theorem C6_theorem :
    (∀ (details : String) (o : Nat → UnlinkOutcome) (fs : FS) (p : String),
      (handle_error ⟨ResultReason.canceled, CancellationReason.error, details⟩ o fs p).1
        = PyError.runtimeError ("合成取消: CancellationReason.Error, 错误详情: " ++ details))
    ∧ (∀ (disp details : String) (o : Nat → UnlinkOutcome) (fs : FS) (p : String),
      (handle_error ⟨ResultReason.canceled, CancellationReason.other disp, details⟩ o fs p).1
        = PyError.runtimeError ("合成取消: " ++ disp))
    ∧ (∀ (result : SpeechResult) (o : Nat → UnlinkOutcome) (fs : FS) (p : String),
      result.reason ≠ ResultReason.canceled →
      (handle_error result o fs p).1 = PyError.nameError "error_msg") := by
  refine ⟨fun details o fs p => rfl, fun disp details o fs p => rfl, ?_⟩
  rintro ⟨r, cr, det⟩ o fs p hr
  cases r with
  | synthesizingAudioCompleted => rfl
  | canceled => exact absurd rfl hr
  | otherReason => rfl

/-- C8: timestamp synchronization returns the server time and caches the
offset `server - local` when the auth-time request succeeds; on any failure
it is non-fatal and returns `local + cached offset` with the offset
unchanged; `OTTSClient.__init__` starts the cached offset at 0. -/
theorem C8_theorem :
    (∀ (st : OTTSState) (localTime t : Int) (nonce : String),
      get_sync_time (some t) localTime st nonce
        = ((t, nonce), ⟨st.skey, st.api_url, st.auth_time_url, t - localTime⟩))
    ∧ (∀ (st : OTTSState) (localTime : Int) (nonce : String),
      get_sync_time none localTime st nonce
        = ((localTime + st.time_offset, nonce), st))
    ∧ (∀ (skv authv : PyVal) (u : String) (rest : Dict),
      otts_init (("TTS_SKEY", skv) :: ("TTS_URL", PyVal.str u) ::
          ("TTS_AUTH_TIME", authv) :: rest)
        = Except.ok ⟨pyStr skv, rstripSlash u, pyStr authv, 0⟩) :=
  ⟨fun _ _ _ _ => rfl, fun _ _ _ => rfl, fun _ _ _ _ => rfl⟩

/-- C9: `_cleanup` never lets an exception escape (both handlers together
catch everything the deletion can raise, so cleanup cannot mask the error
being reported), makes at most 3 unlink attempts, sleeps exactly once per
`PermissionError` among them, and sets the give-up warning exactly when the
last attempt raised a non-permission error (logging and stopping there). -/
theorem C9_theorem (o : Nat → UnlinkOutcome) (fs : FS) (p : String) :
    ∃ r, cleanup o fs p = Except.ok r ∧
      r.attempts ≤ 3 ∧
      r.sleeps = (List.range r.attempts).countP (fun i => o i == UnlinkOutcome.permError) ∧
      r.warned = (decide (0 < r.attempts) && (o (r.attempts - 1) == UnlinkOutcome.otherError)) := by
  refine ⟨cleanupGo o p 3 fs 0 0, rfl, ?_⟩
  cases hf : hasFile fs p
  · rw [cleanupGo_absent o p 3 fs 0 0 hf]
    simp
  · cases h0 : o 0 with
    | ok =>
      simp [cleanupGo, hf, h0, List.range_succ, List.countP_append,
        List.countP_cons, List.countP_nil, List.range_zero]
    | otherError =>
      simp [cleanupGo, hf, h0, List.range_succ, List.countP_append,
        List.countP_cons, List.countP_nil, List.range_zero]
    | permError =>
      cases h1 : o 1 with
      | ok =>
        simp [cleanupGo, hf, h0, h1, List.range_succ, List.countP_append,
          List.countP_cons]
      | otherError =>
        simp [cleanupGo, hf, h0, h1, List.range_succ, List.countP_append,
          List.countP_cons]
      | permError =>
        cases h2 : o 2 with
        | ok =>
          simp [cleanupGo, hf, h0, h1, h2, List.range_succ, List.countP_append,
            List.countP_cons]
        | otherError =>
          simp [cleanupGo, hf, h0, h1, h2, List.range_succ, List.countP_append,
            List.countP_cons]
        | permError =>
          simp [cleanupGo, hf, h0, h1, h2, List.range_succ, List.countP_append,
            List.countP_cons]

theorem other_prefix_not_hex (key : String)
    (h : pyStartswith key "other[" = true) : isHex32 key = false := by
  obtain ⟨u, hu⟩ := List.isPrefixOf_iff_prefix.mp h
  have hall : key.data.all isHexChar = false := by
    rw [← hu, List.all_append]
    rw [show "other[".data.all isHexChar = false by decide]
    rfl
  rw [isHex32, hall, Bool.and_false]

/-- C1 (counterexample): on a native synthesis result whose reason is
neither completed nor canceled, `get_audio` raises the `UnboundLocalError`
escaping `_handle_error` (a `NameError`, since `error_msg` was never
assigned) rather than a `SynthesisError` — so not every failing path
raises a `SynthesisError` as the claim states. -/
theorem C1_counterexample :
    (native_get_audio
      ⟨ResultReason.otherReason,
       CancellationReason.other "CancellationReason.CancelledByUser", ""⟩
      true alwaysOk alwaysOk [] "data/temp/Azure_TTS/azure_f.wav" [7]).1
        = Except.error (PyError.nameError "error_msg")
    ∧ isSynthesisError (PyError.nameError "error_msg") = false := ⟨rfl, rfl⟩

/-- C1 (amended): whenever `get_audio` fails — native or relay backend —
an exception is raised and, provided the best-effort deletions succeed and
the per-call temp file name is fresh, the temp file does not exist on disk
afterwards; the exception is a `SynthesisError` on all relay failures and
on native cancellations, while a native result that is neither completed
nor canceled raises a `NameError` instead; a path is returned to the
caller only when the vendor (or the relay's HTTP status) signaled
success. -/
theorem C1_theorem
    (result : SpeechResult) (written : Bool) (o1 o2 : Nat → UnlinkOutcome)
    (fs : FS) (p : String) (audio : List Nat)
    (st : OTTSState) (vc : VoiceConfig) (text : String)
    (serverTime : Option Int) (localTime : Int) (nonce : String)
    (postResult : Except String HttpResponse) (o3 : Nat → UnlinkOutcome)
    (fs2 : FS) (q : String)
    (h1 : o1 0 = UnlinkOutcome.ok) (hq : hasFile fs2 q = false) :
    (match native_get_audio result written o1 o2 fs p audio with
     | (Except.ok r, _) =>
        result.reason = ResultReason.synthesizingAudioCompleted ∧ r = p
     | (Except.error e, fsA) =>
        hasFile fsA p = false ∧
        (if result.reason = ResultReason.canceled
         then isSynthesisError e = true
         else e = PyError.nameError "error_msg"))
    ∧ (match otts_get_audio st vc text serverTime localTime nonce postResult o3 fs2 q with
     | ((Except.ok r, fsB), _, _) =>
        r = q ∧ hasFile fsB q = true ∧
        ∃ resp, postResult = Except.ok resp ∧ raiseForStatus resp = false
     | ((Except.error e, fsB), _, _) =>
        hasFile fsB q = false ∧ isSynthesisError e = true) := by
  constructor
  · obtain ⟨reason, cr, det⟩ := result
    have hrem : hasFile
        (cleanupGo o1 p 3 (if written then writeFile fs p audio else fs) 0 0).fs p
          = false :=
      cleanupGo_removes o1 _ p h1
    have habs := cleanupGo_absent o2 p 3 _ 0 0 hrem
    cases reason with
    | synthesizingAudioCompleted => exact ⟨rfl, rfl⟩
    | canceled =>
      simp only [native_get_audio, handle_error, cleanup, habs]
      exact ⟨hrem, by simp [isSynthesisError]⟩
    | otherReason =>
      simp only [native_get_audio, handle_error, cleanup, habs]
      exact ⟨hrem, by simp⟩
  · have habs := cleanupGo_absent o3 q 3 fs2 0 0 hq
    cases postResult with
    | error msg =>
      simp only [otts_get_audio, cleanup, habs]
      exact ⟨hq, rfl⟩
    | ok resp =>
      cases hrs : raiseForStatus resp with
      | true =>
        simp only [otts_get_audio, cleanup, hrs, if_true, habs]
        exact ⟨hq, rfl⟩
      | false =>
        simp only [otts_get_audio, cleanup, hrs, if_false]
        exact ⟨rfl, hasFile_writeFile fs2 q resp.content, resp, rfl, hrs⟩

/-- C1 (witness): the amended statement evaluated at one canceled native
call and one successful relay call, with an oracle whose deletions
succeed and a fresh relay temp file. -/
theorem C1_witness :
    (alwaysOk 0 = UnlinkOutcome.ok) ∧ (hasFile [] "otts_f.wav" = false) ∧
    ((match native_get_audio ⟨ResultReason.canceled, CancellationReason.error, "boom"⟩
        true alwaysOk alwaysOk [] "azure_f.wav" [1] with
     | (Except.ok r, _) =>
        (ResultReason.canceled : ResultReason) = ResultReason.synthesizingAudioCompleted
          ∧ r = "azure_f.wav"
     | (Except.error e, fsA) =>
        hasFile fsA "azure_f.wav" = false ∧
        (if (ResultReason.canceled : ResultReason) = ResultReason.canceled
         then isSynthesisError e = true
         else e = PyError.nameError "error_msg"))
    ∧ (match otts_get_audio ⟨"k", "https://e.com/api", "u", 0⟩
        ⟨"v", "s", "r", "1.0", "100"⟩ "hi" (some 5) 3 "aaaaaaaaaa"
        (Except.ok ⟨200, [2]⟩) alwaysOk [] "otts_f.wav" with
     | ((Except.ok r, fsB), _, _) =>
        r = "otts_f.wav" ∧ hasFile fsB "otts_f.wav" = true ∧
        ∃ resp, (Except.ok ⟨200, [2]⟩ : Except String HttpResponse) = Except.ok resp
          ∧ raiseForStatus resp = false
     | ((Except.error e, fsB), _, _) =>
        hasFile fsB "otts_f.wav" = false ∧ isSynthesisError e = true)) :=
  ⟨rfl, rfl,
   C1_theorem ⟨ResultReason.canceled, CancellationReason.error, "boom"⟩
     true alwaysOk alwaysOk [] "azure_f.wav" [1]
     ⟨"k", "https://e.com/api", "u", 0⟩ ⟨"v", "s", "r", "1.0", "100"⟩ "hi"
     (some 5) 3 "aaaaaaaaaa" (Except.ok ⟨200, [2]⟩) alwaysOk [] "otts_f.wav"
     rfl rfl⟩

/-- C3: every 32-character case-insensitive hexadecimal subscription key
makes construction succeed with the native backend (given the region field
is present), and every other key string that does not match the
`other[...]` sentinel makes construction fail with the
`ConfigurationError` (`ValueError`) for an invalid subscription-key
format. -/
theorem C3_theorem :
    (∀ (key : String) (region : PyVal) (rest : Dict)
       (loads : String → Except Unit JsonDoc),
      isHex32 key = true →
      ∃ vc, create_provider loads
          (("azure_tts_subscription_key", PyVal.str key) ::
           ("azure_tts_region", region) :: rest)
        = Except.ok (Backend.native ⟨key, pyStr region⟩ vc))
    ∧ (∀ (key : String) (rest : Dict) (loads : String → Except Unit JsonDoc),
      (pyStartswith key "other[" && pyEndswith key "]") = false →
      isHex32 key = false →
      create_provider loads
          (("azure_tts_subscription_key", PyVal.str key) :: rest)
        = Except.error (PyError.valueError "无效的Azure订阅密钥格式")) := by
  constructor
  · intro key region rest loads h
    have hst : pyStartswith key "other[" = false := by
      cases hcon : pyStartswith key "other["
      · rfl
      · rw [other_prefix_not_hex key hcon] at h
        exact absurd h (by decide)
    have e1 : dictGet (("azure_tts_subscription_key", PyVal.str key) ::
        ("azure_tts_region", region) :: rest) "azure_tts_subscription_key"
          = some (PyVal.str key) := rfl
    have e2 : dictGet (("azure_tts_subscription_key", PyVal.str key) ::
        ("azure_tts_region", region) :: rest) "azure_tts_region"
          = some region := rfl
    refine ⟨loadConfig (("azure_tts_subscription_key", PyVal.str key) ::
      ("azure_tts_region", region) :: rest), ?_⟩
    simp [create_provider, dictGetD, native_init, dictGetE, e1, e2, hst, h]
  · intro key rest loads hsent hhex
    have e1 : dictGet (("azure_tts_subscription_key", PyVal.str key) :: rest)
        "azure_tts_subscription_key" = some (PyVal.str key) := rfl
    simp [create_provider, dictGetD, native_init, dictGetE, e1, hsent, hhex]

/-- C3 (witness): a concrete 32-hex key constructs the native backend, and
a concrete non-sentinel non-hex key fails with the format error. -/
theorem C3_witness :
    (isHex32 "0123456789abcdef0123456789ABCDEF" = true ∧
      ∃ vc, create_provider (loadsConst (Except.error ()))
          [("azure_tts_subscription_key",
              PyVal.str "0123456789abcdef0123456789ABCDEF"),
           ("azure_tts_region", PyVal.str "eastus")]
        = Except.ok (Backend.native ⟨"0123456789abcdef0123456789ABCDEF", "eastus"⟩ vc))
    ∧ ((pyStartswith "not-a-key" "other[" && pyEndswith "not-a-key" "]") = false ∧
      isHex32 "not-a-key" = false ∧
      create_provider (loadsConst (Except.error ()))
          [("azure_tts_subscription_key", PyVal.str "not-a-key")]
        = Except.error (PyError.valueError "无效的Azure订阅密钥格式")) :=
  ⟨⟨by decide,
    C3_theorem.1 "0123456789abcdef0123456789ABCDEF" (PyVal.str "eastus") []
      (loadsConst (Except.error ())) (by decide)⟩,
   ⟨by decide, by decide,
    C3_theorem.2 "not-a-key" [] (loadsConst (Except.error ())) (by decide)
      (by decide)⟩⟩

/-- C10: a subscription key that starts with `other[` but does not end
with `]` is not treated as the relay sentinel: the factory routes it to
the native backend, where it fails the 32-hex validation (such a key can
never be 32 hex digits, its first character being `o`), so construction
raises the invalid-format `ValueError` and no relay-payload error is
reported. -/
theorem C10_theorem (key : String) (rest : Dict)
    (loads : String → Except Unit JsonDoc)
    (h1 : pyStartswith key "other[" = true)
    (h2 : pyEndswith key "]" = false) :
    create_provider loads
        (("azure_tts_subscription_key", PyVal.str key) :: rest)
      = Except.error (PyError.valueError "无效的Azure订阅密钥格式") := by
  have hhex := other_prefix_not_hex key h1
  have hcond : (pyStartswith key "other[" && pyEndswith key "]") = false := by
    rw [h1, h2]
    rfl
  have e1 : dictGet (("azure_tts_subscription_key", PyVal.str key) :: rest)
      "azure_tts_subscription_key" = some (PyVal.str key) := rfl
  simp [create_provider, dictGetD, native_init, dictGetE, e1, hcond, hhex]

/-- C10 (witness): the concrete key `other[x` (no closing bracket) routed
to the native backend and rejected with the format error. -/
theorem C10_witness :
    pyStartswith "other[x" "other[" = true ∧
    pyEndswith "other[x" "]" = false ∧
    create_provider (loadsConst (Except.error ()))
        [("azure_tts_subscription_key", PyVal.str "other[x")]
      = Except.error (PyError.valueError "无效的Azure订阅密钥格式") :=
  ⟨by decide, by decide,
   C10_theorem "other[x" [] (loadsConst (Except.error ())) (by decide) (by decide)⟩

theorem startswith_other (p : String) :
    pyStartswith ("other[" ++ p ++ "]") "other[" = true := by
  rw [pyStartswith, List.isPrefixOf_iff_prefix]
  refine ⟨p.data ++ [']'], ?_⟩
  rw [show ("other[" ++ p ++ "]").data
      = 'o' :: 't' :: 'h' :: 'e' :: 'r' :: '[' :: (p.data ++ [']']) from rfl]
  rfl

theorem endswith_other (p : String) :
    pyEndswith ("other[" ++ p ++ "]") "]" = true := by
  rw [pyEndswith]
  rw [List.isSuffixOf_iff_suffix]
  refine ⟨'o' :: 't' :: 'h' :: 'e' :: 'r' :: '[' :: p.data, ?_⟩
  simp [String.data_append]

theorem slice_other (p : String) : pySlice6m1 ("other[" ++ p ++ "]") = p := by
  show String.mk ((("other[" ++ p ++ "]").data.drop 6).dropLast) = p
  rw [show ("other[" ++ p ++ "]").data
      = 'o' :: 't' :: 'h' :: 'e' :: 'r' :: '[' :: (p.data ++ [']']) from rfl]
  rw [show (('o' :: 't' :: 'h' :: 'e' :: 'r' :: '[' :: (p.data ++ [']'])).drop 6)
      = p.data ++ [']'] from rfl]
  rw [List.dropLast_concat]

theorem dictGet_cons_of_ne (e : String × PyVal) (t : Dict) (k : String)
    (h : (e.1 == k) = false) : dictGet (e :: t) k = dictGet t k := by
  rw [dictGet, dictGet, List.find?_cons_of_neg]
  simp [h]

theorem dictGet_of_contains (kv : Dict) (k : String)
    (h : (kv.map Prod.fst).contains k = true) : ∃ v, dictGet kv k = some v := by
  induction kv with
  | nil => simp at h
  | cons e t ih =>
    by_cases hek : e.1 = k
    · exact ⟨e.2, by rw [dictGet, List.find?_cons_of_pos t (by simp [hek])]; rfl⟩
    · have h' : (t.map Prod.fst).contains k = true := by
        simp only [List.map_cons, List.contains_cons, Bool.or_eq_true,
          beq_iff_eq] at h
        rcases h with h | h
        · exact absurd h.symm hek
        · exact h
      obtain ⟨v, hv⟩ := ih h'
      exact ⟨v, by rw [dictGet_cons_of_ne e t k (by simp [hek]), hv]⟩

theorem dictGet_append_of_some (a b : Dict) (k : String) (v : PyVal)
    (h : dictGet a k = some v) : dictGet (a ++ b) k = some v := by
  rw [dictGet, List.find?_append]
  rw [dictGet] at h
  cases hf : List.find? (fun e => e.1 == k) a with
  | none => rw [hf] at h; simp at h
  | some e =>
    rw [hf] at h
    rw [Option.or_some]
    exact h

/-- Reduction of `create_provider` on a key matching the `other[...]`
sentinel: the factory parses the payload and follows the relay branch. -/
theorem create_provider_sentinel (payload : String) (rest : Dict)
    (loads : String → Except Unit JsonDoc) :
    create_provider loads
        (("azure_tts_subscription_key",
          PyVal.str ("other[" ++ payload ++ "]")) :: rest)
      = (match loads payload with
        | .error _ => Except.error (PyError.valueError "OTTS配置格式错误")
        | .ok JsonDoc.nonObj => Except.error (PyError.attributeError "keys")
        | .ok (JsonDoc.obj kv) =>
          if (requiredKeys.filter (fun k => !((kv.map Prod.fst).contains k))).isEmpty then
            match otts_init (dictMerge (("azure_tts_subscription_key",
                PyVal.str ("other[" ++ payload ++ "]")) :: rest) kv) with
            | .error e => Except.error e
            | .ok st => Except.ok (Backend.relay st (loadConfig (dictMerge
                (("azure_tts_subscription_key",
                  PyVal.str ("other[" ++ payload ++ "]")) :: rest) kv)))
          else Except.error (PyError.valueErrorMissing
            (requiredKeys.filter (fun k => !((kv.map Prod.fst).contains k))))) := by
  simp only [create_provider, dictGetD,
    show dictGet (("azure_tts_subscription_key",
        PyVal.str ("other[" ++ payload ++ "]")) :: rest)
        "azure_tts_subscription_key"
      = some (PyVal.str ("other[" ++ payload ++ "]")) from rfl,
    Option.getD_some, startswith_other, endswith_other, Bool.and_self,
    if_true, slice_other]

/-- C4 (counterexample): a relay payload carrying all three required keys
but a non-string `TTS_URL` value (here the JSON number 1, via the
`json.loads` oracle) does not construct the relay backend: `OTTSClient`
applies `.rstrip('/')` to the value and construction fails with an
`AttributeError`, not success as the claim states. -/
theorem C4_counterexample :
    create_provider (loadsConst (Except.ok (JsonDoc.obj
        [("TTS_SKEY", PyVal.str "k"), ("TTS_URL", PyVal.int 1),
         ("TTS_AUTH_TIME", PyVal.str "u")])))
      [("azure_tts_subscription_key", PyVal.str "other[p]")]
      = Except.error (PyError.attributeError "rstrip") := rfl

/-- C4 (amended): for a subscription key `other[<payload>]`: when
`json.loads` fails on the payload, construction fails with the
malformed-payload `ValueError`; when it yields a JSON object missing any
of TTS_SKEY, TTS_URL, TTS_AUTH_TIME, construction fails with the
`ValueError` naming exactly the missing keys; when all three are present
and the `TTS_URL` value is a string, construction succeeds selecting the
relay backend (a non-string `TTS_URL` instead raises `AttributeError` at
`.rstrip`). -/
theorem C4_theorem :
    (∀ (payload : String) (rest : Dict)
       (loads : String → Except Unit JsonDoc),
      loads payload = Except.error () →
      create_provider loads
          (("azure_tts_subscription_key",
            PyVal.str ("other[" ++ payload ++ "]")) :: rest)
        = Except.error (PyError.valueError "OTTS配置格式错误"))
    ∧ (∀ (payload : String) (rest : Dict)
       (loads : String → Except Unit JsonDoc) (kv : List (String × PyVal)),
      loads payload = Except.ok (JsonDoc.obj kv) →
      requiredKeys.filter (fun k => !((kv.map Prod.fst).contains k)) ≠ [] →
      create_provider loads
          (("azure_tts_subscription_key",
            PyVal.str ("other[" ++ payload ++ "]")) :: rest)
        = Except.error (PyError.valueErrorMissing
            (requiredKeys.filter (fun k => !((kv.map Prod.fst).contains k))))
      ∧ (∀ k, k ∈ requiredKeys.filter (fun k => !((kv.map Prod.fst).contains k))
          ↔ (k ∈ requiredKeys ∧ ¬ k ∈ kv.map Prod.fst)))
    ∧ (∀ (payload : String) (rest : Dict)
       (loads : String → Except Unit JsonDoc) (kv : List (String × PyVal))
       (u : String),
      loads payload = Except.ok (JsonDoc.obj kv) →
      requiredKeys.filter (fun k => !((kv.map Prod.fst).contains k)) = [] →
      dictGet kv "TTS_URL" = some (PyVal.str u) →
      ∃ st vc, create_provider loads
          (("azure_tts_subscription_key",
            PyVal.str ("other[" ++ payload ++ "]")) :: rest)
        = Except.ok (Backend.relay st vc)) := by
  refine ⟨?_, ?_, ?_⟩
  · intro payload rest loads hl
    rw [create_provider_sentinel, hl]
  · intro payload rest loads kv hl hmiss
    constructor
    · have hne : (requiredKeys.filter
          (fun k => !((kv.map Prod.fst).contains k))).isEmpty = false := by
        cases hE : (requiredKeys.filter
            (fun k => !((kv.map Prod.fst).contains k))).isEmpty
        · rfl
        · exact absurd (List.isEmpty_iff.mp hE) hmiss
      rw [create_provider_sentinel, hl]
      simp only [hne]
      simp
    · intro k
      simp [List.mem_filter, List.contains, List.elem_iff]
  · intro payload rest loads kv u hl hfil hurl
    have hsk : ((kv.map Prod.fst).contains "TTS_SKEY") = true := by
      cases hc : (kv.map Prod.fst).contains "TTS_SKEY"
      · have := (List.filter_eq_nil_iff.mp hfil) "TTS_SKEY" (by simp [requiredKeys])
        rw [hc] at this
        simp at this
      · rfl
    have hat : ((kv.map Prod.fst).contains "TTS_AUTH_TIME") = true := by
      cases hc : (kv.map Prod.fst).contains "TTS_AUTH_TIME"
      · have := (List.filter_eq_nil_iff.mp hfil) "TTS_AUTH_TIME"
          (by simp [requiredKeys])
        rw [hc] at this
        simp at this
      · rfl
    obtain ⟨vs, hvs⟩ := dictGet_of_contains kv "TTS_SKEY" hsk
    obtain ⟨va, hva⟩ := dictGet_of_contains kv "TTS_AUTH_TIME" hat
    have m1 := dictGet_append_of_some kv
      (("azure_tts_subscription_key",
        PyVal.str ("other[" ++ payload ++ "]")) :: rest) "TTS_SKEY" vs hvs
    have m2 := dictGet_append_of_some kv
      (("azure_tts_subscription_key",
        PyVal.str ("other[" ++ payload ++ "]")) :: rest) "TTS_URL"
      (PyVal.str u) hurl
    have m3 := dictGet_append_of_some kv
      (("azure_tts_subscription_key",
        PyVal.str ("other[" ++ payload ++ "]")) :: rest) "TTS_AUTH_TIME"
      va hva
    refine ⟨⟨pyStr vs, rstripSlash u, pyStr va, 0⟩,
      loadConfig (dictMerge (("azure_tts_subscription_key",
        PyVal.str ("other[" ++ payload ++ "]")) :: rest) kv), ?_⟩
    rw [create_provider_sentinel, hl]
    simp only [hfil, List.isEmpty_nil, if_true, dictMerge, otts_init,
      dictGetE, m1, m2, m3]

/-- C4 (witness): a payload object carrying string values for all three
required keys constructs the relay backend, trailing slashes of the URL
stripped. -/
theorem C4_witness :
    create_provider (loadsConst (Except.ok (JsonDoc.obj
        [("TTS_SKEY", PyVal.str "k"), ("TTS_URL", PyVal.str "https://e.com/t/"),
         ("TTS_AUTH_TIME", PyVal.str "a")])))
      [("azure_tts_subscription_key", PyVal.str "other[p]")]
      = Except.ok (Backend.relay ⟨"k", "https://e.com/t", "a", 0⟩
          ⟨"zh-CN-YunxiaNeural", "cheerful", "Boy", "1.0", "100"⟩) := rfl

theorem codeUrlPath_eq_spec (url : String) (h : urlHasPath url = true) :
    codeUrlPath url = urlPathSpec url := by
  rw [urlHasPath] at h
  rw [codeUrlPath, urlPathSpec, pySplit1Last, pySplit1Last]
  cases h1 : splitTailAux "//".data url.data with
  | none => rw [h1] at h; simp at h
  | some rest =>
    rw [h1] at h
    have h' : (splitTailAux "/".data rest).isSome = true := by simpa using h
    simp only [h1]
    cases h2 : splitTailAux "/".data rest with
    | none => rw [h2] at h'; simp at h'
    | some t => simp [h2]

set_option maxRecDepth 32768 in
/-- C5 (counterexample): for the API base URL `https://h.example`, which
has no path component, the signed URL is not built from the URL path
component (the empty string): the code hashes `/h.example`, the host
itself with a leading slash, so the claim's formula fails at this input. -/
theorem C5_counterexample :
    (generate_signed_url ⟨"sk", "https://h.example", "u", 0⟩ none 100
        "aaaaaaaaaa").1
      ≠ "https://h.example" ++ "?sign=" ++ toString (100 : Int) ++ "-" ++
        "aaaaaaaaaa" ++ "-0-" ++
        md5Hex (strBytes (urlPathSpec "https://h.example" ++ "-" ++
          toString (100 : Int) ++ "-" ++ "aaaaaaaaaa" ++ "-0-" ++ "sk")) := by
  decide

/-- C5 (amended): for every fixed timestamp source, nonce and signing key,
and every API base URL that has a path component (a slash after the
authority), the signed URL is the base URL with
`?sign=timestamp-nonce-0-signature` appended, where
`signature = MD5(path + "-" + timestamp + "-" + nonce + "-0-" + signingKey)`
and `path` is the URL path component; for a URL without a path the code
hashes `/` + the authority instead.  A second call with the same inputs
(from the state the first call left) produces the same signed URL, so the
signature is reproducible. -/
theorem C5_theorem (skey authUrl : String) (off : Int) (api_url : String)
    (serverTime : Option Int) (localTime : Int) (nonce : String)
    (h : urlHasPath api_url = true) :
    ((generate_signed_url ⟨skey, api_url, authUrl, off⟩ serverTime localTime
        nonce).1
      = api_url ++ "?sign=" ++
        toString (match serverTime with
          | some t => t
          | none => localTime + off) ++ "-" ++ nonce ++ "-0-" ++
        md5Hex (strBytes (urlPathSpec api_url ++ "-" ++
          toString (match serverTime with
            | some t => t
            | none => localTime + off) ++ "-" ++ nonce ++ "-0-" ++ skey)))
    ∧ (generate_signed_url
        ((generate_signed_url ⟨skey, api_url, authUrl, off⟩ serverTime
          localTime nonce).2) serverTime localTime nonce).1
      = (generate_signed_url ⟨skey, api_url, authUrl, off⟩ serverTime
          localTime nonce).1 := by
  constructor
  · cases serverTime with
    | some t =>
      simp [generate_signed_url, get_sync_time, codeUrlPath_eq_spec api_url h]
    | none =>
      simp [generate_signed_url, get_sync_time, codeUrlPath_eq_spec api_url h]
  · cases serverTime with
    | some t => rfl
    | none => rfl

/-- C5 (witness): the amended statement at a URL with path `/tts`, local
clock 100, offset 0 and a fixed nonce. -/
theorem C5_witness :
    urlHasPath "https://e.com/tts" = true ∧
    (((generate_signed_url ⟨"sk", "https://e.com/tts", "u", 0⟩ none 100
        "ab12cd34ef").1
      = "https://e.com/tts" ++ "?sign=" ++
        toString (match (none : Option Int) with
          | some t => t
          | none => (100 : Int) + 0) ++ "-" ++ "ab12cd34ef" ++ "-0-" ++
        md5Hex (strBytes (urlPathSpec "https://e.com/tts" ++ "-" ++
          toString (match (none : Option Int) with
            | some t => t
            | none => (100 : Int) + 0) ++ "-" ++ "ab12cd34ef" ++ "-0-" ++ "sk")))
    ∧ (generate_signed_url
        ((generate_signed_url ⟨"sk", "https://e.com/tts", "u", 0⟩ none 100
          "ab12cd34ef").2) none 100 "ab12cd34ef").1
      = (generate_signed_url ⟨"sk", "https://e.com/tts", "u", 0⟩ none 100
          "ab12cd34ef").1) :=
  ⟨by decide,
   C5_theorem "sk" "u" 0 "https://e.com/tts" none 100 "ab12cd34ef" (by decide)⟩

/-- C7 (counterexample): a 304 response — not a 2xx status — does not
cause a `SynthesisError`: `raise_for_status` raises only for 4xx/5xx, so
the relay call writes the body and returns the path as a success. -/
theorem C7_counterexample :
    ((otts_get_audio ⟨"k", "https://e.com/api", "u", 0⟩
        ⟨"v", "s", "r", "1.0", "100"⟩ "hi" (some 5) 3 "aaaaaaaaaa"
        (Except.ok ⟨304, [9]⟩) alwaysOk [] "o.wav").1).1
      = Except.ok "o.wav"
    ∧ raiseForStatus ⟨304, [9]⟩ = false := ⟨rfl, rfl⟩

/-- C7 (amended): every relay call issues exactly one HTTP POST, to the
signed URL, with exactly the form fields {text, voice, style, role, rate,
volume} and a 10-second timeout.  A request exception or a 4xx/5xx status
raises the `SynthesisError` and leaves the temp directory unchanged (so no
partial file, the per-call name being fresh); any other status — 2xx, but
also 1xx/3xx — writes the response body to the output file and returns its
path. -/
theorem C7_theorem (st : OTTSState) (vc : VoiceConfig) (text : String)
    (serverTime : Option Int) (localTime : Int) (nonce : String)
    (postResult : Except String HttpResponse) (o : Nat → UnlinkOutcome)
    (fs : FS) (p : String) (hp : hasFile fs p = false) :
    ((otts_get_audio st vc text serverTime localTime nonce postResult o fs
        p).2).2
      = [⟨(generate_signed_url st serverTime localTime nonce).1,
          [("text", text), ("voice", vc.voice), ("style", vc.style),
           ("role", vc.role), ("rate", vc.rate), ("volume", vc.volume)],
          10⟩]
    ∧ (∀ msg, postResult = Except.error msg →
        ((otts_get_audio st vc text serverTime localTime nonce postResult o
            fs p).1)
          = (Except.error (PyError.runtimeError "语音服务暂时不可用"), fs))
    ∧ (∀ resp, postResult = Except.ok resp → raiseForStatus resp = true →
        ((otts_get_audio st vc text serverTime localTime nonce postResult o
            fs p).1)
          = (Except.error (PyError.runtimeError "语音服务暂时不可用"), fs))
    ∧ (∀ resp, postResult = Except.ok resp → raiseForStatus resp = false →
        ((otts_get_audio st vc text serverTime localTime nonce postResult o
            fs p).1)
          = (Except.ok p, writeFile fs p resp.content)
        ∧ readFile (((otts_get_audio st vc text serverTime localTime nonce
            postResult o fs p).1)).2 p = some resp.content) := by
  have habs := cleanupGo_absent o p 3 fs 0 0 hp
  refine ⟨?_, ?_, ?_, ?_⟩
  · cases postResult with
    | error msg => simp [otts_get_audio, cleanup]
    | ok resp =>
      cases hrs : raiseForStatus resp with
      | true => simp [otts_get_audio, cleanup, hrs]
      | false => simp [otts_get_audio, cleanup, hrs]
  · intro msg hpost
    subst hpost
    simp [otts_get_audio, cleanup, habs]
  · intro resp hpost hrs
    subst hpost
    simp [otts_get_audio, cleanup, hrs, habs]
  · intro resp hpost hrs
    subst hpost
    constructor
    · simp [otts_get_audio, cleanup, hrs]
    · simp [otts_get_audio, cleanup, hrs, readFile_writeFile]

/-- C7 (witness): a successful relay POST at status 200 writing body
bytes `[3, 4]` to a fresh output file. -/
theorem C7_witness :
    hasFile [] "o2.wav" = false ∧
    (((otts_get_audio ⟨"k", "https://e.com/api", "u", 0⟩
        ⟨"v", "s", "r", "1.0", "100"⟩ "hi" (some 5) 3 "aaaaaaaaaa"
        (Except.ok ⟨200, [3, 4]⟩) alwaysOk [] "o2.wav").2).2
      = [⟨(generate_signed_url ⟨"k", "https://e.com/api", "u", 0⟩ (some 5) 3
            "aaaaaaaaaa").1,
          [("text", "hi"), ("voice", "v"), ("style", "s"),
           ("role", "r"), ("rate", "1.0"), ("volume", "100")], 10⟩]
    ∧ (∀ msg, (Except.ok ⟨200, [3, 4]⟩ : Except String HttpResponse)
          = Except.error msg →
        ((otts_get_audio ⟨"k", "https://e.com/api", "u", 0⟩
            ⟨"v", "s", "r", "1.0", "100"⟩ "hi" (some 5) 3 "aaaaaaaaaa"
            (Except.ok ⟨200, [3, 4]⟩) alwaysOk [] "o2.wav").1)
          = (Except.error (PyError.runtimeError "语音服务暂时不可用"), []))
    ∧ (∀ resp, (Except.ok ⟨200, [3, 4]⟩ : Except String HttpResponse)
          = Except.ok resp → raiseForStatus resp = true →
        ((otts_get_audio ⟨"k", "https://e.com/api", "u", 0⟩
            ⟨"v", "s", "r", "1.0", "100"⟩ "hi" (some 5) 3 "aaaaaaaaaa"
            (Except.ok ⟨200, [3, 4]⟩) alwaysOk [] "o2.wav").1)
          = (Except.error (PyError.runtimeError "语音服务暂时不可用"), []))
    ∧ (∀ resp, (Except.ok ⟨200, [3, 4]⟩ : Except String HttpResponse)
          = Except.ok resp → raiseForStatus resp = false →
        ((otts_get_audio ⟨"k", "https://e.com/api", "u", 0⟩
            ⟨"v", "s", "r", "1.0", "100"⟩ "hi" (some 5) 3 "aaaaaaaaaa"
            (Except.ok ⟨200, [3, 4]⟩) alwaysOk [] "o2.wav").1)
          = (Except.ok "o2.wav", writeFile [] "o2.wav" resp.content)
        ∧ readFile (((otts_get_audio ⟨"k", "https://e.com/api", "u", 0⟩
            ⟨"v", "s", "r", "1.0", "100"⟩ "hi" (some 5) 3 "aaaaaaaaaa"
            (Except.ok ⟨200, [3, 4]⟩) alwaysOk [] "o2.wav").1)).2 "o2.wav"
          = some resp.content)) :=
  ⟨rfl,
   C7_theorem ⟨"k", "https://e.com/api", "u", 0⟩ ⟨"v", "s", "r", "1.0", "100"⟩
     "hi" (some 5) 3 "aaaaaaaaaa" (Except.ok ⟨200, [3, 4]⟩) alwaysOk []
     "o2.wav" rfl⟩

end AzureTTS
